import Mathlib

/-!
# Verification of `src/gmail/read_gmail.py`

A shallow embedding of the email-reading script: the Gmail message shape it
consumes, the normalization function `parse_email`, the persistence helper
`save_email_json`, the fetch helpers, and the entry point `main`, together
with theorems settling the specification's claims about them.

Conventions of the embedding:
* JSON dictionary fields that may be absent are `Option` fields; `none`
  models a missing key.  A Python `dict[key]` access on a missing key raises
  `KeyError`; where the script performs such an access outside a
  `try/except`, the embedded function returns `none` (failure).
* `base64.urlsafe_b64decode` is modelled by `urlsafe_b64decode`, returning
  `none` exactly when Python raises (non-ASCII input, or leftover data
  characters that cannot form a final group).
* `bytes.decode("utf-8", errors="ignore")` is modelled by `utf8DecodeIgnore`,
  which never fails: undecodable bytes are skipped.
* `str.strip()` is modelled by `pyStrip` over the ASCII whitespace
  characters (the only ones arising from the decoded byte strings here).
* Effects of `main` (credential loading, API round trips, the file write)
  are recorded as an explicit event trace over an abstract mailbox
  environment.
-/

set_option autoImplicit false

namespace ReadGmail

/-! ## Data model: the raw Gmail message -/

/-- A `name`/`value` header pair, as in `payload["headers"]`.  The Gmail API
always populates both fields on a well-formed message. -/
structure Header where
  name : String
  value : String
  deriving DecidableEq, Repr

/-- One payload part.  The script reads `part.get("mimeType")`,
`part.get("filename")` and `part["body"]["data"]`; missing `"body"` or
missing `"data"` both raise `KeyError` inside the same `try`, so they are
collapsed into a single optional `bodyData`.  `parts` holds the nested
sub-parts of a multipart part (the script itself never reads them; they are
needed to state claims about nested parts). -/
inductive Part where
  | mk (mimeType : Option String) (filename : Option String)
       (bodyData : Option String) (parts : List Part)

def Part.mimeType : Part → Option String
  | .mk m _ _ _ => m

def Part.filename : Part → Option String
  | .mk _ f _ _ => f

def Part.bodyData : Part → Option String
  | .mk _ _ b _ => b

def Part.subParts : Part → List Part
  | .mk _ _ _ ps => ps

/-- The message payload.  `parts = none` models a payload without a
`"parts"` key (the script branches on `"parts" in payload`);
`bodyData` models `payload["body"]["data"]`, again with the two missing-key
failures collapsed into one `Option`. -/
structure Payload where
  headers : Option (List Header)
  parts : Option (List Part)
  bodyData : Option String

/-- A raw Gmail message object as returned by
`users().messages().get(..., format="full")`. -/
structure RawMessage where
  id : Option String
  payload : Option Payload
  snippet : Option String
  labelIds : Option (List String)

/-- The flat record built by `parse_email` (field names as in the script).
`fecha_extraccion` is the wall-clock timestamp, passed in as a parameter of
the embedding. -/
structure ParsedEmail where
  id : String
  fecha_extraccion : String
  remitente : Option String
  asunto : Option String
  fecha_correo : Option String
  body : String
  snippet : String
  labels : List String
  adjuntos : List String
  deriving DecidableEq, Repr

/-! ## `base64.urlsafe_b64decode` -/

/-- Index of a character in the standard base64 alphabet, `none` for
characters outside it. -/
def b64Index (c : Char) : Option Nat :=
  if 'A' ≤ c ∧ c ≤ 'Z' then some (c.toNat - 'A'.toNat)
  else if 'a' ≤ c ∧ c ≤ 'z' then some (c.toNat - 'a'.toNat + 26)
  else if '0' ≤ c ∧ c ≤ '9' then some (c.toNat - '0'.toNat + 52)
  else if c = '+' then some 62
  else if c = '/' then some 63
  else none

/-- The three bytes encoded by a full group of four base64 digits. -/
def b64Quad (a b c d : Nat) : List Nat :=
  [a * 4 + b / 16, (b % 16) * 16 + c / 4, (c % 4) * 64 + d]

/-- `binascii.a2b_base64` in its default lenient mode: characters outside
the alphabet are discarded; a `'='` ends the data, emitting the bytes of a
final group of two or three digits; leftover digits with no padding (or a
lone digit) raise `binascii.Error`, modelled by `none`. -/
def a2bBase64 : List Char → List Nat → Option (List Nat)
  | [], pending =>
    match pending with
    | [] => some []
    | _ => none
  | c :: rest, pending =>
    if c = '=' then
      match pending with
      | [a, b] => some [a * 4 + b / 16]
      | [a, b, c2] => some [a * 4 + b / 16, (b % 16) * 16 + c2 / 4]
      | _ => a2bBase64 rest pending
    else
      match b64Index c with
      | none => a2bBase64 rest pending
      | some v =>
        match pending with
        | [a, b, c2] => (a2bBase64 rest []).map (fun out => b64Quad a b c2 v ++ out)
        | _ => a2bBase64 rest (pending ++ [v])

/-- `base64.urlsafe_b64decode(s)` on a `str` argument: the string is first
ASCII-encoded (failing on any non-ASCII character), `'-'`/`'_'` are mapped
to `'+'`/`'/'`, and the result is decoded leniently.  `none` models a raised
exception. -/
def urlsafe_b64decode (s : String) : Option (List Nat) :=
  if s.toList.any (fun c => 128 ≤ c.toNat) then none
  else
    a2bBase64
      (s.toList.map (fun c => if c = '-' then '+' else if c = '_' then '/' else c)) []

/-! ## `bytes.decode("utf-8", errors="ignore")` -/

/-- Is `b` a UTF-8 continuation byte? -/
def isCont (b : Nat) : Bool := 128 ≤ b ∧ b < 192

/-- Worker for `utf8DecodeIgnore`, structurally recursive on a fuel
argument so that it evaluates inside the kernel; every step consumes at
least one byte, so fuel equal to the length of the byte list suffices. -/
def utf8DecodeGo : Nat → List Nat → List Char
  | 0, _ => []
  | _, [] => []
  | fuel + 1, b :: rest =>
    if b < 128 then
      Char.ofNat b :: utf8DecodeGo fuel rest
    else if 194 ≤ b ∧ b ≤ 223 then
      match rest with
      | b2 :: rest2 =>
        if isCont b2 then
          Char.ofNat ((b - 192) * 64 + (b2 - 128)) :: utf8DecodeGo fuel rest2
        else utf8DecodeGo fuel (b2 :: rest2)
      | [] => []
    else if 224 ≤ b ∧ b ≤ 239 then
      match rest with
      | b2 :: rest2 =>
        if isCont b2 ∧ (b ≠ 224 ∨ 160 ≤ b2) ∧ (b ≠ 237 ∨ b2 ≤ 159) then
          match rest2 with
          | b3 :: rest3 =>
            if isCont b3 then
              Char.ofNat ((b - 224) * 4096 + (b2 - 128) * 64 + (b3 - 128)) ::
                utf8DecodeGo fuel rest3
            else utf8DecodeGo fuel (b3 :: rest3)
          | [] => []
        else utf8DecodeGo fuel (b2 :: rest2)
      | [] => []
    else if 240 ≤ b ∧ b ≤ 244 then
      match rest with
      | b2 :: rest2 =>
        if isCont b2 ∧ (b ≠ 240 ∨ 144 ≤ b2) ∧ (b ≠ 244 ∨ b2 ≤ 143) then
          match rest2 with
          | b3 :: rest3 =>
            if isCont b3 then
              match rest3 with
              | b4 :: rest4 =>
                if isCont b4 then
                  Char.ofNat ((b - 240) * 262144 + (b2 - 128) * 4096 +
                      (b3 - 128) * 64 + (b4 - 128)) :: utf8DecodeGo fuel rest4
                else utf8DecodeGo fuel (b4 :: rest4)
              | [] => []
            else utf8DecodeGo fuel (b3 :: rest3)
          | [] => []
        else utf8DecodeGo fuel (b2 :: rest2)
      | [] => []
    else utf8DecodeGo fuel rest

/-- `bytes.decode("utf-8", errors="ignore")`: UTF-8 decoding that skips
invalid bytes and resynchronises at the next byte, never failing. -/
def utf8DecodeIgnore (bs : List Nat) : List Char :=
  utf8DecodeGo bs.length bs

/-- Decoded bytes as a `String`. -/
def utf8Decode (bs : List Nat) : String :=
  String.mk (utf8DecodeIgnore bs)

/-! ## `str.strip()` and Python truthiness helpers -/

/-- ASCII whitespace stripped by `str.strip()`. -/
def isPyWhitespace (c : Char) : Bool :=
  c = ' ' ∨ c = '\t' ∨ c = '\n' ∨ c = '\x0d' ∨ c.toNat = 11 ∨ c.toNat = 12

/-- `str.strip()`: remove leading and trailing whitespace. -/
def pyStrip (s : String) : String :=
  String.mk
    (((s.toList.dropWhile isPyWhitespace).reverse.dropWhile isPyWhitespace).reverse)

/-- `str.lower()` on a header name (ASCII in the Gmail header schema),
character by character. -/
def pyLower (s : String) : String :=
  String.mk (s.toList.map Char.toLower)

/-- Truthiness of an optional string (`if filename:` / `if args.id:`):
`None` and the empty string are falsy. -/
def strTruthy : Option String → Bool
  | none => false
  | some s => s ≠ ""

/-! ## `parse_email` -/

/-- The three optional header-derived fields accumulated by the header loop. -/
structure HeaderFields where
  remitente : Option String
  asunto : Option String
  fecha_correo : Option String
  deriving DecidableEq, Repr

/-- One iteration of the header loop: `name = h["name"].lower()`, then the
`from`/`subject`/`date` comparisons, each overwriting the corresponding
field. -/
def applyHeader (acc : HeaderFields) (h : Header) : HeaderFields :=
  let name := pyLower h.name
  if name = "from" then { acc with remitente := some h.value }
  else if name = "subject" then { acc with asunto := some h.value }
  else if name = "date" then { acc with fecha_correo := some h.value }
  else acc

/-- `base64.urlsafe_b64decode(part["body"]["data"]).decode("utf-8",
errors="ignore")` for one part, inside the `try`: `none` models the caught
exception — a missing `"body"`/`"data"` key or a failed base64 decode. -/
def decodePartBody (p : Part) : Option String :=
  match p.bodyData with
  | none => none
  | some s => (urlsafe_b64decode s).map utf8Decode

/-- The `for part in payload["parts"]` loop: the first `"text/plain"` part
that decodes successfully wins (`break`); a decode failure `continue`s; no
match leaves `body = ""`. -/
def extractBody : List Part → String
  | [] => ""
  | p :: rest =>
    if p.mimeType = some "text/plain" then
      match decodePartBody p with
      | some s => s
      | none => extractBody rest
    else extractBody rest

/-- The `else` branch: decode `payload["body"]["data"]` directly; any
exception (missing key or decode failure) yields `""`. -/
def extractTopLevelBody (pl : Payload) : String :=
  match pl.bodyData with
  | none => ""
  | some s =>
    match urlsafe_b64decode s with
    | some bs => utf8Decode bs
    | none => ""

/-- The attachment loop: `filename = part.get("filename")`, appended when
truthy (present and non-empty). -/
def collectAttachments (parts : List Part) : List String :=
  parts.filterMap (fun p => if strTruthy p.filename then p.filename else none)

/-- The body-selection branch: the parts loop when `"parts" in payload`,
otherwise the direct decode of the top-level body. -/
def computeBody (pl : Payload) : String :=
  match pl.parts with
  | some parts => extractBody parts
  | none => extractTopLevelBody pl

/-- The attachment branch: the filename loop when `"parts" in payload`,
otherwise the initial empty list. -/
def computeAdjuntos (pl : Payload) : List String :=
  match pl.parts with
  | some parts => collectAttachments parts
  | none => []

/-- `parse_email(msg)`.  `now` stands for `datetime.now(timezone.utc)
.isoformat()`.  The single un-guarded required access is `msg["id"]`:
on a message without an identifier the function raises `KeyError`,
modelled by `none`. -/
def parse_email (now : String) (msg : RawMessage) : Option ParsedEmail :=
  match msg.id with
  | none => none
  | some mid =>
    let pl := msg.payload.getD ⟨none, none, none⟩
    let headers := pl.headers.getD []
    let hf := headers.foldl applyHeader ⟨none, none, none⟩
    some
      { id := mid
        fecha_extraccion := now
        remitente := hf.remitente
        asunto := hf.asunto
        fecha_correo := hf.fecha_correo
        body := pyStrip (computeBody pl)
        snippet := msg.snippet.getD ""
        labels := msg.labelIds.getD []
        adjuntos := computeAdjuntos pl }

/-! ## `save_email_json` -/

/-- The identifier used for the output file:
`data.get("id", f"sin_id_{timestamp}")`. `ts` stands for
`datetime.now(timezone.utc).timestamp()`. -/
def saveCorreoId (ts : String) (dataId : Option String) : String :=
  dataId.getD ("sin_id_" ++ ts)

/-- The output file name `mail_<correo_id>.json`. -/
def saveFileName (correoId : String) : String :=
  "mail_" ++ correoId ++ ".json"

/-! ## Fetcher and entry point -/

/-- `fetch_last_email`: `messages().list(maxResults=1, labelIds=["INBOX"])`
returns at most the newest inbox message; the function returns its id, or
`None` when the inbox is empty. `inbox` lists the inbox's message ids,
newest first. -/
def fetch_last_email (inbox : List String) : Option String :=
  inbox.head?

/-- The abstract mailbox environment `main` runs against. -/
structure Env where
  /-- Does `config/credentials/token.json` exist? (`load_credentials`
  raises `FileNotFoundError` otherwise.) -/
  tokenExists : Bool
  /-- Inbox message ids, newest first. -/
  inbox : List String
  /-- Full message objects by id; `none` makes
  `messages().get` raise (`MessageNotFound`/`HttpError`). -/
  messages : String → Option RawMessage

/-- The parsed command line: `--last` flag and optional `--id` value. -/
structure Args where
  last : Bool
  id : Option String
  deriving DecidableEq, Repr

/-- One observable effect of a `main` run. -/
inductive Event where
  /-- `get_gmail_service()` — credential loading and client construction. -/
  | loadService
  /-- The `messages().list` round trip inside `fetch_last_email`. -/
  | listInbox
  /-- The `messages().get` round trip inside `fetch_email_by_id`. -/
  | getMessage (id : String)
  /-- The file written by `save_email_json`. -/
  | saveFile (name : String)
  deriving DecidableEq, Repr

/-- How a `main` run terminates. -/
inductive MainOutcome where
  /-- `FileNotFoundError` from `load_credentials` (token artifact absent). -/
  | errCredentials
  /-- Usage notice printed, `return` without error (neither flag given). -/
  | usage
  /-- `--last` with an empty inbox: notice printed, `return` without error. -/
  | emptyInbox
  /-- `messages().get` failed for the requested id. -/
  | errNotFound (id : String)
  /-- `KeyError` raised by `parse_email` (message without `"id"`). -/
  | errParse
  /-- Success: record saved to `file`. -/
  | saved (id : String) (file : String)
  deriving DecidableEq, Repr

/-- The tail of `main` after a target id is resolved:
`fetch_email_by_id` → `parse_email` → `save_email_json`. -/
def runFetchAndSave (env : Env) (now ts : String) (done : List Event)
    (msgId : String) : List Event × MainOutcome :=
  match env.messages msgId with
  | none => (done ++ [Event.getMessage msgId], MainOutcome.errNotFound msgId)
  | some msg =>
    match parse_email now msg with
    | none => (done ++ [Event.getMessage msgId], MainOutcome.errParse)
    | some rec =>
      let file := saveFileName (saveCorreoId ts (some rec.id))
      (done ++ [Event.getMessage msgId, Event.saveFile file],
        MainOutcome.saved rec.id file)

/-- `main()`: argument parsing is pure; `get_gmail_service()` runs before
the mode selection; then `if args.id: ... elif args.last: ... else: usage`.
Returns the event trace and the outcome. -/
def main (args : Args) (env : Env) (now ts : String) :
    List Event × MainOutcome :=
  if ¬ env.tokenExists then ([Event.loadService], MainOutcome.errCredentials)
  else
    let done := [Event.loadService]
    if strTruthy args.id then
      runFetchAndSave env now ts done (args.id.getD "")
    else if args.last then
      match fetch_last_email env.inbox with
      | none => (done ++ [Event.listInbox], MainOutcome.emptyInbox)
      | some msgId => runFetchAndSave env now ts (done ++ [Event.listInbox]) msgId
    else
      (done, MainOutcome.usage)

/-! ## Spec-side characterizations

Definitions phrased after the specification's words, to be compared with
the embedded code. -/

/-- Does a part declare MIME type exactly `"text/plain"`? -/
def isPlainText (p : Part) : Bool :=
  p.mimeType = some "text/plain"

/-- Spec side: the decoded content of the first part of the list whose
body decodes successfully; parts that fail to decode are skipped. -/
def firstDecodable : List Part → Option String
  | [] => none
  | p :: rest =>
    match decodePartBody p with
    | some s => some s
    | none => firstDecodable rest

/-- Spec side, after "first plain-text part found (depth-first over
payload parts, first match wins)": a depth-first traversal that also
descends into the nested sub-parts of multipart parts, returning the
decoded content of the first `"text/plain"` part that decodes
successfully. -/
def dfsFirstPlainText : List Part → Option String
  | [] => none
  | Part.mk m _ b sub :: rest =>
    match (if m = some "text/plain" then
            (b.bind fun s => (urlsafe_b64decode s).map utf8Decode)
          else none) with
    | some s => some s
    | none =>
      match dfsFirstPlainText sub with
      | some s => some s
      | none => dfsFirstPlainText rest

/-- The header list of a raw message (empty when the payload or its
header list is absent). -/
def RawMessage.headerList (msg : RawMessage) : List Header :=
  match msg.payload with
  | none => []
  | some pl => pl.headers.getD []

/-- Spec side: the value of the last header of the list whose name
matches `key` case-insensitively, `none` when there is no such header. -/
def lastHeaderValue (key : String) (hs : List Header) : Option String :=
  ((hs.filter fun h => pyLower h.name = key).getLast?).map Header.value

/-- Spec side: the filenames, in payload-parts order, of the parts that
declare a non-empty filename attribute, regardless of MIME type; a
message without a parts list contributes nothing. -/
def specAttachments (msg : RawMessage) : List String :=
  match msg.payload with
  | none => []
  | some pl =>
    match pl.parts with
    | none => []
    | some ps =>
      (ps.filter fun p => strTruthy p.filename).map fun p => p.filename.getD ""

/-- Erase the nested sub-parts of a part, keeping the three fields the
script reads. -/
def Part.clearSub : Part → Part
  | .mk m f b _ => .mk m f b []

/-- Erase the nested sub-parts of every top-level payload part of a
message. -/
def RawMessage.clearNested (msg : RawMessage) : RawMessage :=
  { msg with
    payload := msg.payload.map fun pl =>
      { pl with parts := pl.parts.map (List.map Part.clearSub) } }

/-! ## Concrete test inputs for the witnesses and counterexamples -/

/-- An empty payload: every optional field absent. -/
def emptyPayload : Payload := ⟨none, none, none⟩

/-- C1: an html part, a `"text/plain"` part with no body data (its decode
raises and is skipped), then a decodable `"text/plain"` part. -/
def c1Parts : List Part :=
  [Part.mk (some "text/html") none (some "PGRpdj5IaTwvZGl2Pg==") [],
   Part.mk (some "text/plain") none none [],
   Part.mk (some "text/plain") none (some "aGVsbG8=") []]

def c1Msg : RawMessage :=
  ⟨some "m1", some ⟨none, some c1Parts, none⟩, none, none⟩

/-- C2: a message carrying only an identifier. -/
def c2MsgBare : RawMessage := ⟨some "m2", none, none, none⟩

/-- C2: a message whose payload is present but has every field absent. -/
def c2MsgEmptyPayload : RawMessage := ⟨some "m2b", some emptyPayload, none, none⟩

/-- C3: the only `"text/plain"` part is nested inside a multipart
sub-part; the top-level scan never finds it. -/
def c3Parts : List Part :=
  [Part.mk (some "multipart/alternative") none none
    [Part.mk (some "text/plain") none (some "aGVsbG8=") []]]

def c3Msg : RawMessage :=
  ⟨some "m3", some ⟨none, some c3Parts, none⟩, none, none⟩

/-- C4: a message object without an `"id"` key. -/
def c4MsgNoId : RawMessage := ⟨none, none, none, none⟩

/-- C4: an environment that returns the id-less message for `"m4"`. -/
def c4Env : Env := ⟨true, [], fun i => if i = "m4" then some c4MsgNoId else none⟩

def c4MsgGood : RawMessage := ⟨some "a1", none, none, none⟩

/-- The record `parse_email` produces for `c4MsgGood`. -/
def c4RecGood : ParsedEmail := ⟨"a1", "T", none, none, none, "", "", [], []⟩

/-- C5: no token artifact on disk; empty mailbox. -/
def c5Env : Env := ⟨false, [], fun _ => none⟩

/-- C5/C6: token artifact present, empty mailbox. -/
def okEmptyEnv : Env := ⟨true, [], fun _ => none⟩

/-- C7: payload without a parts list whose body data is valid base64 for
`"hello"`. -/
def c7MsgGood : RawMessage :=
  ⟨some "m7", some ⟨none, none, some "aGVsbG8="⟩, none, none⟩

/-- C7: payload without a parts list whose body data is malformed base64
(a single data character). -/
def c7MsgBad : RawMessage :=
  ⟨some "m7b", some ⟨none, none, some "A"⟩, none, none⟩

/-- C8: a parts list with no `"text/plain"` part at all. -/
def c8Parts : List Part :=
  [Part.mk (some "text/html") none (some "aGVsbG8=") [],
   Part.mk (some "application/pdf") (some "a.pdf") (some "aGVsbG8=") []]

def c8Msg : RawMessage :=
  ⟨some "m8", some ⟨none, some c8Parts, none⟩, none, none⟩

/-- C9: parts with a pdf attachment, an empty filename, a missing
filename, and a named plain-text part. -/
def c9Parts : List Part :=
  [Part.mk (some "application/pdf") (some "invoice.pdf") none [],
   Part.mk (some "text/html") (some "") (some "aGVsbG8=") [],
   Part.mk (some "text/plain") none (some "aGVsbG8=") [],
   Part.mk (some "text/plain") (some "b.txt") (some "aGVsbG8=") []]

def c9Msg : RawMessage :=
  ⟨some "m9", some ⟨none, some c9Parts, none⟩, none, none⟩

/-- C10: repeated `From` headers under differing capitalisation and no
`Date` header. -/
def c10Headers : List Header :=
  [⟨"FROM", "a@x.com"⟩, ⟨"X-Other", "z"⟩, ⟨"From", "b@y.com"⟩, ⟨"subject", "Hi"⟩]

def c10Msg : RawMessage :=
  ⟨some "m10", some ⟨some c10Headers, none, none⟩, none, none⟩

/-! ## Helper lemmas -/

theorem applyHeader_remitente (acc : HeaderFields) (h : Header) :
    (applyHeader acc h).remitente =
      if pyLower h.name = "from" then some h.value else acc.remitente := by
  simp only [applyHeader]
  split_ifs <;> simp_all

theorem applyHeader_asunto (acc : HeaderFields) (h : Header) :
    (applyHeader acc h).asunto =
      if pyLower h.name = "subject" then some h.value else acc.asunto := by
  simp only [applyHeader]
  split_ifs <;> simp_all

theorem applyHeader_fecha_correo (acc : HeaderFields) (h : Header) :
    (applyHeader acc h).fecha_correo =
      if pyLower h.name = "date" then some h.value else acc.fecha_correo := by
  simp only [applyHeader]
  split_ifs <;> simp_all

theorem foldl_applyHeader_remitente (hs : List Header) (acc : HeaderFields) :
    (hs.foldl applyHeader acc).remitente =
      (lastHeaderValue "from" hs).or acc.remitente := by
  induction hs generalizing acc with
  | nil => simp [lastHeaderValue]
  | cons h t ih =>
    rw [List.foldl_cons, ih]
    unfold lastHeaderValue
    rw [List.filter_cons]
    by_cases hp : pyLower h.name = "from"
    · rw [if_pos (by simpa using hp), List.getLast?_cons]
      cases hlast : (t.filter fun x => pyLower x.name = "from").getLast? with
      | none => simp [hlast, applyHeader_remitente, hp]
      | some x => simp [hlast, applyHeader_remitente, hp]
    · rw [if_neg (by simpa using hp)]
      rw [applyHeader_remitente, if_neg hp]

theorem foldl_applyHeader_asunto (hs : List Header) (acc : HeaderFields) :
    (hs.foldl applyHeader acc).asunto =
      (lastHeaderValue "subject" hs).or acc.asunto := by
  induction hs generalizing acc with
  | nil => simp [lastHeaderValue]
  | cons h t ih =>
    rw [List.foldl_cons, ih]
    unfold lastHeaderValue
    rw [List.filter_cons]
    by_cases hp : pyLower h.name = "subject"
    · rw [if_pos (by simpa using hp), List.getLast?_cons]
      cases hlast : (t.filter fun x => pyLower x.name = "subject").getLast? with
      | none => simp [hlast, applyHeader_asunto, hp]
      | some x => simp [hlast, applyHeader_asunto, hp]
    · rw [if_neg (by simpa using hp)]
      rw [applyHeader_asunto, if_neg hp]

theorem foldl_applyHeader_fecha_correo (hs : List Header) (acc : HeaderFields) :
    (hs.foldl applyHeader acc).fecha_correo =
      (lastHeaderValue "date" hs).or acc.fecha_correo := by
  induction hs generalizing acc with
  | nil => simp [lastHeaderValue]
  | cons h t ih =>
    rw [List.foldl_cons, ih]
    unfold lastHeaderValue
    rw [List.filter_cons]
    by_cases hp : pyLower h.name = "date"
    · rw [if_pos (by simpa using hp), List.getLast?_cons]
      cases hlast : (t.filter fun x => pyLower x.name = "date").getLast? with
      | none => simp [hlast, applyHeader_fecha_correo, hp]
      | some x => simp [hlast, applyHeader_fecha_correo, hp]
    · rw [if_neg (by simpa using hp)]
      rw [applyHeader_fecha_correo, if_neg hp]

theorem parse_email_isSome (now : String) (msg : RawMessage) :
    (parse_email now msg).isSome = msg.id.isSome := by
  cases h : msg.id <;> simp [parse_email, h]

theorem parse_email_id (now i : String) (msg : RawMessage) (h : msg.id = some i) :
    (parse_email now msg).map ParsedEmail.id = some i := by
  simp [parse_email, h]

theorem parse_email_body (now i : String) (msg : RawMessage)
    (h : msg.id = some i) :
    (parse_email now msg).map ParsedEmail.body =
      some (pyStrip (computeBody (msg.payload.getD emptyPayload))) := by
  simp [parse_email, h, emptyPayload]

theorem parse_email_adjuntos (now i : String) (msg : RawMessage)
    (h : msg.id = some i) :
    (parse_email now msg).map ParsedEmail.adjuntos =
      some (computeAdjuntos (msg.payload.getD emptyPayload)) := by
  simp [parse_email, h, emptyPayload]

theorem parse_email_remitente (now i : String) (msg : RawMessage)
    (h : msg.id = some i) :
    (parse_email now msg).map ParsedEmail.remitente =
      some ((((msg.payload.getD emptyPayload).headers.getD []).foldl
        applyHeader ⟨none, none, none⟩).remitente) := by
  simp [parse_email, h, emptyPayload]

theorem parse_email_asunto (now i : String) (msg : RawMessage)
    (h : msg.id = some i) :
    (parse_email now msg).map ParsedEmail.asunto =
      some ((((msg.payload.getD emptyPayload).headers.getD []).foldl
        applyHeader ⟨none, none, none⟩).asunto) := by
  simp [parse_email, h, emptyPayload]

theorem parse_email_fecha_correo (now i : String) (msg : RawMessage)
    (h : msg.id = some i) :
    (parse_email now msg).map ParsedEmail.fecha_correo =
      some ((((msg.payload.getD emptyPayload).headers.getD []).foldl
        applyHeader ⟨none, none, none⟩).fecha_correo) := by
  simp [parse_email, h, emptyPayload]

theorem headerList_eq_getD (msg : RawMessage) :
    msg.headerList = (msg.payload.getD emptyPayload).headers.getD [] := by
  cases msg with
  | mk mid pay sn lb => cases pay <;> rfl

theorem extractBody_eq_filter (ps : List Part) :
    extractBody ps = (firstDecodable (ps.filter isPlainText)).getD "" := by
  induction ps with
  | nil => rfl
  | cons p t ih =>
    by_cases hp : p.mimeType = some "text/plain"
    · cases hd : decodePartBody p with
      | some s =>
        simp [extractBody, List.filter_cons, isPlainText, hp, hd, firstDecodable]
      | none =>
        simp [extractBody, List.filter_cons, isPlainText, hp, hd, firstDecodable, ih]
    · simp [extractBody, List.filter_cons, isPlainText, hp, ih]

theorem extractBody_of_no_plain (ps : List Part)
    (h : ∀ p ∈ ps, ¬ p.mimeType = some "text/plain") : extractBody ps = "" := by
  have hf : ps.filter isPlainText = [] := by
    simp only [List.filter_eq_nil_iff, isPlainText]
    intro p hp
    simpa using h p hp
  rw [extractBody_eq_filter, hf]
  rfl

theorem collectAttachments_eq (ps : List Part) :
    collectAttachments ps =
      (ps.filter fun p => strTruthy p.filename).map fun p => p.filename.getD "" := by
  simp only [collectAttachments]
  induction ps with
  | nil => rfl
  | cons p t ih =>
    rw [List.filterMap_cons, List.filter_cons]
    cases hp : strTruthy p.filename with
    | true =>
      cases hf : p.filename with
      | none => simp [strTruthy, hf] at hp
      | some f => simp [hp, hf, ih]
    | false => simp [hp, ih]

theorem decodePartBody_clearSub (p : Part) :
    decodePartBody p.clearSub = decodePartBody p := by
  cases p
  rfl

theorem extractBody_clearSub (ps : List Part) :
    extractBody (ps.map Part.clearSub) = extractBody ps := by
  induction ps with
  | nil => rfl
  | cons p t ih =>
    cases p with
    | mk m f b sub =>
      show extractBody (Part.mk m f b [] :: t.map Part.clearSub) =
        extractBody (Part.mk m f b sub :: t)
      unfold extractBody
      have hdc : decodePartBody (Part.mk m f b []) =
          decodePartBody (Part.mk m f b sub) := rfl
      simp only [Part.mimeType]
      by_cases hm : m = some "text/plain"
      · rw [if_pos hm, if_pos hm, hdc]
        cases decodePartBody (Part.mk m f b sub) <;> simp [ih]
      · rw [if_neg hm, if_neg hm]
        exact ih

theorem collectAttachments_clearSub (ps : List Part) :
    collectAttachments (ps.map Part.clearSub) = collectAttachments ps := by
  simp only [collectAttachments, List.filterMap_map]
  congr 1
  funext p
  cases p
  rfl

/-! ## The claims -/

/-- C1: on a message whose payload declares a parts list, the body is the
decoded content (whitespace-trimmed) of the first `"text/plain"` part of
the list whose decode succeeds: non-plain-text parts are passed over
regardless of position, and a `"text/plain"` part whose decode fails
(malformed base64 or missing body data) is skipped, scanning continuing
with the later parts. -/
theorem c1_first_plain_part_in_order (now : String) (msg : RawMessage)
    (pl : Payload) (ps : List Part) (hid : msg.id.isSome)
    (hpl : msg.payload = some pl) (hps : pl.parts = some ps) :
    (parse_email now msg).map ParsedEmail.body =
      some (pyStrip ((firstDecodable (ps.filter isPlainText)).getD "")) := by
  obtain ⟨i, hi⟩ := Option.isSome_iff_exists.mp hid
  rw [parse_email_body now i msg hi, hpl]
  simp [computeBody, hps, extractBody_eq_filter]

/-- Witness for C1 at a concrete message: an html part, then a
`"text/plain"` part with no body data (skipped), then a decodable
`"text/plain"` part whose content `"hello"` becomes the body. -/
theorem c1_first_plain_part_in_order_witness :
    (parse_email "T" c1Msg).map ParsedEmail.body =
      some (pyStrip ((firstDecodable (c1Parts.filter isPlainText)).getD "")) ∧
    (parse_email "T" c1Msg).map ParsedEmail.body = some "hello" :=
  ⟨c1_first_plain_part_in_order "T" c1Msg ⟨none, some c1Parts, none⟩ c1Parts
      rfl rfl rfl,
   by decide⟩

/-- C2: `parse_email` is total on any raw message that carries an
identifier: whatever optional fields are absent (payload, header list,
individual headers, parts list, body data), it returns a record rather
than failing. -/
theorem c2_total_with_id (now : String) (msg : RawMessage)
    (hid : msg.id.isSome) : (parse_email now msg).isSome := by
  rw [parse_email_isSome]
  exact hid

/-- Witness for C2 at two concrete messages: one with no payload at all,
one whose payload has every optional field absent. -/
theorem c2_total_with_id_witness :
    (parse_email "T" c2MsgBare).isSome ∧
    (parse_email "T" c2MsgEmptyPayload).isSome :=
  ⟨c2_total_with_id "T" c2MsgBare rfl, c2_total_with_id "T" c2MsgEmptyPayload rfl⟩

/-- C3, counterexample: on `c3Msg` the only `"text/plain"` part sits
nested inside a multipart sub-part.  A depth-first traversal
(`dfsFirstPlainText`, the claim's reading) finds it and decodes
`"hello"`, but `parse_email` scans only the top level and produces the
empty body. -/
theorem c3_counterexample :
    (parse_email "T" c3Msg).map ParsedEmail.body = some "" ∧
    dfsFirstPlainText c3Parts = some "hello" ∧ ("" : String) ≠ "hello" := by
  refine ⟨by decide, ?_, by decide⟩
  simp only [c3Parts, dfsFirstPlainText]
  decide

/-- C3, amended: the body is selected from the top-level entries of the
parts list only; parts nested inside multipart sub-parts are never
examined — erasing every nested sub-part leaves the normalized record
unchanged. -/
theorem c3_amended_top_level_only (now : String) (msg : RawMessage) :
    parse_email now msg.clearNested = parse_email now msg := by
  cases msg with
  | mk mid pay sn lb =>
    cases mid with
    | none => rfl
    | some i =>
      cases pay with
      | none => rfl
      | some pl =>
        cases pl with
        | mk hd pts bd =>
          cases pts with
          | none => rfl
          | some ps =>
            simp [parse_email, RawMessage.clearNested, computeBody, computeAdjuntos,
              extractBody_clearSub, collectAttachments_clearSub]

/-- C4, counterexample: on a raw message without an `"id"` key,
`parse_email` raises `KeyError` (returns no record), and a pipeline run
that fetches such a message ends in that error with no file written —
no placeholder-id record is ever produced. -/
theorem c4_counterexample :
    parse_email "T" c4MsgNoId = none ∧
    main ⟨false, some "m4"⟩ c4Env "T" "TS" =
      ([Event.loadService, Event.getMessage "m4"], MainOutcome.errParse) :=
  ⟨rfl, rfl⟩

/-- C4, amended: the persisted id is never synthesized on any record the
pipeline actually produces — `save_email_json`'s timestamp placeholder
fires only for a record lacking an id, and `parse_email` never returns
one: every record it returns carries the upstream message's identifier,
and on a message without an identifier it raises instead of producing a
placeholder record. -/
theorem c4_amended_placeholder_unreachable (now ts : String) (msg : RawMessage) :
    (∀ rec, parse_email now msg = some rec →
      msg.id = some rec.id ∧ saveCorreoId ts (some rec.id) = rec.id) ∧
    (msg.id = none → parse_email now msg = none) := by
  constructor
  · intro rec h
    cases hid : msg.id with
    | none => simp [parse_email, hid] at h
    | some i =>
      have hmap := parse_email_id now i msg hid
      rw [h] at hmap
      simp only [Option.map_some'] at hmap
      refine ⟨?_, ?_⟩
      · exact hmap.symm
      · simp [saveCorreoId]
  · intro hid
    simp [parse_email, hid]

/-- Witness for C4 (amended) at a concrete message with identifier
`"a1"`: the produced record's id is the message's id and the save path
uses it unchanged. -/
theorem c4_amended_placeholder_unreachable_witness :
    c4MsgGood.id = some c4RecGood.id ∧
    saveCorreoId "TS" (some c4RecGood.id) = c4RecGood.id :=
  (c4_amended_placeholder_unreachable "T" "TS" c4MsgGood).1 c4RecGood (by decide)

/-- C5, counterexample: with neither `--last` nor `--id` and the token
artifact missing, the run fails with a credentials error before any
usage notice — credential loading and client construction do run before
the mode check, contrary to the claim. -/
theorem c5_counterexample :
    main ⟨false, none⟩ c5Env "T" "TS" =
      ([Event.loadService], MainOutcome.errCredentials) ∧
    MainOutcome.errCredentials ≠ MainOutcome.usage :=
  ⟨rfl, by decide⟩

/-- C5, amended: with neither flag, provided credential loading
succeeds, the entry point prints the usage notice and returns without
error, with no fetch attempted — but credential loading and client
construction (which can themselves fail) do run before the usage
notice. -/
theorem c5_amended_usage_after_service (env : Env) (args : Args)
    (now ts : String) (htok : env.tokenExists = true)
    (hid : strTruthy args.id = false) (hlast : args.last = false) :
    main args env now ts = ([Event.loadService], MainOutcome.usage) := by
  simp [main, htok, hid, hlast]

/-- Witness for C5 (amended) at a concrete flagless invocation. -/
theorem c5_amended_usage_after_service_witness :
    main ⟨false, none⟩ okEmptyEnv "T" "TS" =
      ([Event.loadService], MainOutcome.usage) :=
  c5_amended_usage_after_service okEmptyEnv ⟨false, none⟩ "T" "TS" rfl rfl rfl

/-- C6: in `--last` mode against an empty inbox, `fetch_last_email`
returns an empty result (not an error) and the run terminates as a
benign no-op: the trace holds exactly the service load and the inbox
listing — no message fetch, no file write, and the outcome is the
non-error `emptyInbox`. -/
theorem c6_empty_inbox_noop (env : Env) (args : Args) (now ts : String)
    (htok : env.tokenExists = true) (hlast : args.last = true)
    (hid : strTruthy args.id = false) (hinbox : env.inbox = []) :
    fetch_last_email env.inbox = none ∧
    main args env now ts =
      ([Event.loadService, Event.listInbox], MainOutcome.emptyInbox) := by
  constructor
  · rw [hinbox]
    rfl
  · simp [main, htok, hid, hlast, fetch_last_email, hinbox]

/-- Witness for C6 at a concrete `--last` run over an empty mailbox. -/
theorem c6_empty_inbox_noop_witness :
    fetch_last_email okEmptyEnv.inbox = none ∧
    main ⟨true, none⟩ okEmptyEnv "T" "TS" =
      ([Event.loadService, Event.listInbox], MainOutcome.emptyInbox) :=
  c6_empty_inbox_noop okEmptyEnv ⟨true, none⟩ "T" "TS" rfl rfl rfl rfl

/-- C7: on a message whose payload has no parts list, the top-level body
data is decoded directly: when it is valid URL-safe base64 the body is
exactly the decoded, whitespace-trimmed text, and on any decode failure
the body is the empty string — in both cases a record is returned, no
error propagates. -/
theorem c7_top_level_body (now s : String) (msg : RawMessage) (pl : Payload)
    (hid : msg.id.isSome) (hpl : msg.payload = some pl)
    (hparts : pl.parts = none) (hbody : pl.bodyData = some s) :
    (∀ bs, urlsafe_b64decode s = some bs →
      (parse_email now msg).map ParsedEmail.body =
        some (pyStrip (utf8Decode bs))) ∧
    (urlsafe_b64decode s = none →
      (parse_email now msg).map ParsedEmail.body = some "") := by
  obtain ⟨i, hi⟩ := Option.isSome_iff_exists.mp hid
  constructor
  · intro bs hbs
    rw [parse_email_body now i msg hi, hpl]
    simp [computeBody, hparts, extractTopLevelBody, hbody, hbs]
  · intro hbs
    rw [parse_email_body now i msg hi, hpl]
    simp only [Option.getD_some, computeBody, hparts, extractTopLevelBody,
      hbody, hbs]
    decide

/-- Witness for C7 at two concrete messages: valid base64 for `"hello"`
decodes exactly, malformed base64 (`"A"`) yields the empty body. -/
theorem c7_top_level_body_witness :
    (parse_email "T" c7MsgGood).map ParsedEmail.body =
      some (pyStrip (utf8Decode [104, 101, 108, 108, 111])) ∧
    (parse_email "T" c7MsgBad).map ParsedEmail.body = some "" :=
  ⟨(c7_top_level_body "T" "aGVsbG8=" c7MsgGood ⟨none, none, some "aGVsbG8="⟩
      rfl rfl rfl rfl).1 [104, 101, 108, 108, 111] (by decide),
   (c7_top_level_body "T" "A" c7MsgBad ⟨none, none, some "A"⟩
      rfl rfl rfl rfl).2 (by decide)⟩

/-- C8: on a message whose parts list holds no `"text/plain"` part at
all, the body of the produced record is the empty string. -/
theorem c8_no_plain_means_empty_body (now : String) (msg : RawMessage)
    (pl : Payload) (ps : List Part) (hid : msg.id.isSome)
    (hpl : msg.payload = some pl) (hps : pl.parts = some ps)
    (hnone : ∀ p ∈ ps, ¬ p.mimeType = some "text/plain") :
    (parse_email now msg).map ParsedEmail.body = some "" := by
  obtain ⟨i, hi⟩ := Option.isSome_iff_exists.mp hid
  rw [parse_email_body now i msg hi, hpl]
  simp only [Option.getD_some, computeBody, hps,
    extractBody_of_no_plain ps hnone]
  decide

/-- Witness for C8 at a concrete message with only html and pdf parts. -/
theorem c8_no_plain_means_empty_body_witness :
    (parse_email "T" c8Msg).map ParsedEmail.body = some "" :=
  c8_no_plain_means_empty_body "T" c8Msg ⟨none, some c8Parts, none⟩ c8Parts
    rfl rfl rfl (by decide)

/-- C9: the attachments of the produced record are exactly the
filenames, in payload-parts order, of the parts declaring a non-empty
filename, regardless of MIME type; filename-less or empty-named parts
contribute nothing, no content or identifiers are collected, and a
message without a parts list yields the empty sequence
(`specAttachments` states this spec-side). -/
theorem c9_attachment_filenames (now : String) (msg : RawMessage)
    (hid : msg.id.isSome) :
    (parse_email now msg).map ParsedEmail.adjuntos =
      some (specAttachments msg) := by
  obtain ⟨i, hi⟩ := Option.isSome_iff_exists.mp hid
  rw [parse_email_adjuntos now i msg hi]
  cases hmsg : msg.payload with
  | none => simp [specAttachments, hmsg, computeAdjuntos, emptyPayload]
  | some pl =>
    cases hps : pl.parts with
    | none => simp [specAttachments, hmsg, hps, computeAdjuntos]
    | some ps =>
      simp [specAttachments, hmsg, hps, computeAdjuntos, collectAttachments_eq]

/-- Witness for C9 at a concrete message: a pdf with a filename, an
empty-named part, a nameless part and a named text part yield exactly
the two non-empty filenames in order. -/
theorem c9_attachment_filenames_witness :
    (parse_email "T" c9Msg).map ParsedEmail.adjuntos =
      some (specAttachments c9Msg) ∧
    specAttachments c9Msg = ["invoice.pdf", "b.txt"] :=
  ⟨c9_attachment_filenames "T" c9Msg rfl, by decide⟩

/-- C10: header lookup is case-insensitive and last-wins — the record's
sender, subject and message date each equal the value of the last header
whose name case-insensitively matches `"from"`, `"subject"` or `"date"`
respectively; when no such header exists the field is absent
(`none`), not null or empty. -/
theorem c10_header_last_wins (now : String) (msg : RawMessage)
    (hid : msg.id.isSome) :
    (parse_email now msg).map ParsedEmail.remitente =
      some (lastHeaderValue "from" msg.headerList) ∧
    (parse_email now msg).map ParsedEmail.asunto =
      some (lastHeaderValue "subject" msg.headerList) ∧
    (parse_email now msg).map ParsedEmail.fecha_correo =
      some (lastHeaderValue "date" msg.headerList) := by
  obtain ⟨i, hi⟩ := Option.isSome_iff_exists.mp hid
  refine ⟨?_, ?_, ?_⟩
  · rw [parse_email_remitente now i msg hi, foldl_applyHeader_remitente,
      headerList_eq_getD]
    simp
  · rw [parse_email_asunto now i msg hi, foldl_applyHeader_asunto,
      headerList_eq_getD]
    simp
  · rw [parse_email_fecha_correo now i msg hi, foldl_applyHeader_fecha_correo,
      headerList_eq_getD]
    simp

/-- Witness for C10 at a concrete message with two differently-cased
`From` headers, a lowercase `subject` header and no `Date` header: the
later `From` wins, `subject` matches case-insensitively, and the date
field is absent. -/
theorem c10_header_last_wins_witness :
    ((parse_email "T" c10Msg).map ParsedEmail.remitente =
        some (lastHeaderValue "from" c10Msg.headerList) ∧
      (parse_email "T" c10Msg).map ParsedEmail.asunto =
        some (lastHeaderValue "subject" c10Msg.headerList) ∧
      (parse_email "T" c10Msg).map ParsedEmail.fecha_correo =
        some (lastHeaderValue "date" c10Msg.headerList)) ∧
    (parse_email "T" c10Msg).map ParsedEmail.remitente = some (some "b@y.com") ∧
    (parse_email "T" c10Msg).map ParsedEmail.asunto = some (some "Hi") ∧
    (parse_email "T" c10Msg).map ParsedEmail.fecha_correo = some none :=
  ⟨c10_header_last_wins "T" c10Msg rfl, by decide, by decide, by decide⟩

end ReadGmail
